import Mathlib

/-!
Verification of the SLIR grapevine infection cellular automaton (`sir.ipynb`).

The notebook's simulation core is shallowly embedded here:
* `AgentState` — the four compartment constants.
* `Agent` — the per-cell attribute record built up by the notebook's setup code.
* The transition rules `s_2_l`, `l_2_i`, `self_recovery`, `manual_removal`, with
  every `random.random()` draw made an explicit rational parameter in `[0,1)`.
* `update_agent` — the per-agent state machine, decomposed into the three
  sequential `if` blocks of the Python function.
* `VineInfectionModel.step` — the two-phase (compute, then commit) generation
  step, with phase one modelled as the sequential in-place loop of the source
  (a left fold that mutates the agent list entry by entry), so that the
  synchronous-update property is a theorem rather than a modelling assumption.
* Setup: cultivar banding, attribute initialisation, and seeding.
-/

namespace Vine

namespace AgentState

def SUSCEPTIBLE : Nat := 0

def LATENT : Nat := 1

def INFECTED : Nat := 2

def RECOVERED : Nat := 3

end AgentState

/-- Module-level constants of the notebook. -/
def intercropping_distance : Nat := 5

def intercropping_row_count : Nat := 5

def default_infectivity_offset : ℚ := 10

def resistant_infectivity_offset : ℚ := 180

def default_latency_duration : ℚ := 8

def default_infectivity : ℚ := 10

def removal_threshold : Nat := 10

def recovery_rate : ℚ := 1 / 1000

/-- Per-cell attribute record. The notebook attaches these attributes
dynamically to each `ap.Agent`; all of them are assigned during setup and
(for `state_next`) during the first computation phase. `latency_duration`
is the raw `random.gauss` draw (a float, possibly negative), modelled as ℚ. -/
structure Agent where
  state : Nat
  state_next : Nat
  initial_state : Nat
  infectivity_offset : ℚ
  latency_duration : ℚ
  latency_counter : Nat
  deriving DecidableEq

instance : Inhabited Agent :=
  ⟨{ state := 0, state_next := 0, initial_state := 0, infectivity_offset := 0,
     latency_duration := 0, latency_counter := 0 }⟩

/-- The two uniform draws an agent may consume in one generation:
the `random.random()` call inside `s_2_l` and the one inside `self_recovery`.
Values produced by `random.random()` lie in `[0, 1)`, including `0.0`. -/
structure Draws where
  s2l_prob : ℚ
  recovery_prob : ℚ
  deriving DecidableEq

/-- Function `is_intercropped_resistant_cultivar(position)`. -/
def is_intercropped_resistant_cultivar (position : Nat × Nat) : Bool :=
  let x_coordinate := position.1
  decide (x_coordinate % (intercropping_distance + intercropping_row_count) ≥
    intercropping_distance)

/-- The body of the loop in `set_up_agent_variable_attributes`, for one agent at
`position`, with the agent's `random.gauss(default_latency_duration, 2)` draw
passed in as `latency_draw`. -/
def set_up_agent_attributes (position : Nat × Nat) (latency_draw : ℚ) : Agent :=
  let is_resistant_cultivar := is_intercropped_resistant_cultivar position
  let initState :=
    if is_resistant_cultivar then AgentState.RECOVERED else AgentState.SUSCEPTIBLE
  { state := initState
    state_next := initState
    initial_state := initState
    infectivity_offset :=
      if is_resistant_cultivar then resistant_infectivity_offset
      else default_infectivity_offset
    latency_counter := 0
    latency_duration := latency_draw }

/-- Function `set_up_agent_variable_attributes(grid)`: the grid holds `n * n` agents;
agent `i` sits at position `(i / n, i % n)` (row-major fill of the `n×n` grid),
and draws its own latency duration from the random stream. -/
def set_up_agent_variable_attributes (n : Nat) (latency_draws : Nat → ℚ) :
    List Agent :=
  (List.range (n * n)).map
    (fun i => set_up_agent_attributes (i / n, i % n) (latency_draws i))

/-- Seeding in `VineInfectionModel.setup`: `initial_infected.state = LATENT`,
broadcast over the randomly selected agents. The random selection (without
replacement) is passed in as the list of selected indices `sel`. -/
def seed_initial_infected (agents : List Agent) (sel : List Nat) : List Agent :=
  (List.range agents.length).map
    (fun i =>
      if i ∈ sel then { agents.getD i default with state := AgentState.LATENT }
      else agents.getD i default)

/-- Rule `s_2_l(vine, neighbors)` with the uniform draw `prob` explicit. -/
def s_2_l (vine : Agent) (neighbors : List Agent) (prob : ℚ) : Bool :=
  let neighborhood_infectivity : ℚ :=
    default_infectivity *
      ((neighbors.filter (fun n => decide (n.state = AgentState.INFECTED))).length : ℚ)
  decide (prob ≤ neighborhood_infectivity /
    (neighborhood_infectivity + vine.infectivity_offset))

/-- Rule `l_2_i(vine, neighbors)` (the `neighbors` argument is unused in the source). -/
def l_2_i (vine : Agent) (neighbors : List Agent) : Bool :=
  decide (vine.latency_duration ≤ (vine.latency_counter : ℚ))

/-- Rule `self_recovery(vine, neighbors)` with the uniform draw `prob` explicit
(the `vine`/`neighbors` arguments are unused in the source). -/
def self_recovery (vine : Agent) (neighbors : List Agent) (prob : ℚ) : Bool :=
  decide (prob ≤ recovery_rate)

/-- Rule `manual_removal(vine, neighbors)`: reads the global `model_generation`. -/
def manual_removal (vine : Agent) (neighbors : List Agent)
    (model_generation : Nat) : Bool :=
  decide (model_generation > 0 ∧ model_generation % removal_threshold = 0)

/-- First `if` block of `update_agent`: Susceptible/Recovered exposure. -/
def update_sr (vine : Agent) (neighbors : List Agent) (d : Draws) : Agent :=
  if vine.state = AgentState.SUSCEPTIBLE ∨ vine.state = AgentState.RECOVERED then
    { vine with
      state_next :=
        if s_2_l vine neighbors d.s2l_prob then AgentState.LATENT else vine.state }
  else vine

/-- Second `if` block of `update_agent`: Latent progression. The counter is
incremented first (`vine.latency_counter += 1`) and `l_2_i` then reads the
incremented value. -/
def update_latent (vine : Agent) (neighbors : List Agent) : Agent :=
  if vine.state = AgentState.LATENT then
    let v := { vine with latency_counter := vine.latency_counter + 1 }
    { v with
      state_next := if l_2_i v neighbors then AgentState.INFECTED else v.state }
  else vine

/-- Third `if` block of `update_agent`: Infected resolution. The counter is
zeroed, then self-recovery is tried first (early `return`), then manual
removal (early `return`), else the agent stays Infected. -/
def update_infected (vine : Agent) (neighbors : List Agent) (d : Draws)
    (model_generation : Nat) : Agent :=
  if vine.state = AgentState.INFECTED then
    let v := { vine with latency_counter := 0 }
    if self_recovery v neighbors d.recovery_prob then
      { v with
        initial_state := AgentState.RECOVERED
        state_next := AgentState.RECOVERED
        infectivity_offset := resistant_infectivity_offset }
    else if manual_removal v neighbors model_generation then
      { v with state_next := v.initial_state }
    else
      { v with state_next := v.state }
  else vine

/-- Function `update_agent(vine, neighbors)`: the three sequential `if` blocks of the
Python function, applied in order to the (conceptually mutable) agent. -/
def update_agent (vine : Agent) (neighbors : List Agent) (d : Draws)
    (model_generation : Nat) : Agent :=
  update_infected (update_latent (update_sr vine neighbors d) neighbors) neighbors
    d model_generation

/-- Resolve a list of neighbor indices into the corresponding agents. -/
def neighbor_agents (agents : List Agent) (idxs : List Nat) : List Agent :=
  idxs.filterMap (fun j => agents[j]?)

/-- Phase one of `VineInfectionModel.step`: the `for vine in self.agents:`
loop. `update_agent` mutates each agent object in place, so later iterations
read the already-rewritten records of earlier-processed agents; this is
modelled faithfully as a left fold that replaces list entries one by one and
resolves each agent's neighbors from the current (partially updated) list. -/
def compute_phase (agents : List Agent) (nbrs : Nat → List Nat)
    (drawsAt : Nat → Draws) (model_generation : Nat) : List Agent :=
  (List.range agents.length).foldl
    (fun acc i =>
      acc.set i
        (update_agent (acc.getD i default) (neighbor_agents acc (nbrs i))
          (drawsAt i) model_generation))
    agents

/-- Phase two of `VineInfectionModel.step`: `vine.state = vine.state_next`
for every agent. -/
def commit_phase (agents : List Agent) : List Agent :=
  agents.map (fun vine => { vine with state := vine.state_next })

/-- The whole simulation state owned by one run: the agent list, AgentPy's
step counter `t`, the module-level global `model_generation`, and whether
`self.stop()` has been called. -/
structure ModelState where
  agents : List Agent
  t : Nat
  model_generation : Nat
  stopped : Bool
  deriving DecidableEq

/-- Method `VineInfectionModel.step`. AgentPy increments `self.t` before invoking
`step`, so the step body runs with counter `s.t + 1` while the transition
rules still read the global `model_generation` left over from the previous
step; the global is refreshed to `self.t` only after the commit loop.
Finally the stop condition counts committed Latent and Infected agents. -/
def step (nbrs : Nat → List Nat) (drawsAt : Nat → Draws) (s : ModelState) :
    ModelState :=
  let t := s.t + 1
  let computed := compute_phase s.agents nbrs drawsAt s.model_generation
  let committed := commit_phase computed
  let latent_agent_count :=
    (committed.filter (fun a => decide (a.state = AgentState.LATENT))).length
  let infected_agent_count :=
    (committed.filter (fun a => decide (a.state = AgentState.INFECTED))).length
  { agents := committed
    t := t
    model_generation := t
    stopped := decide (latent_agent_count + infected_agent_count = 0) }

/-- One iteration of the AgentPy run loop: a stopped model takes no further
steps. `draws t i` is the pair of uniform draws consumed by agent `i` during
the step started from counter value `t`. -/
def sim_step (nbrs : Nat → List Nat) (draws : Nat → Nat → Draws)
    (s : ModelState) : ModelState :=
  if s.stopped then s else step nbrs (draws s.t) s

/-- The state after `k` iterations of the run loop. -/
def sim_run (nbrs : Nat → List Nat) (draws : Nat → Nat → Draws)
    (init : ModelState) : Nat → ModelState
  | 0 => init
  | k + 1 => sim_step nbrs draws (sim_run nbrs draws init k)

/-- Method `VineInfectionModel.setup`: build the `size × size` grid of agents, run
the heterogeneity initializer, seed the selected agents Latent. The source
performs no validation of `size` or of the seed count; this embedding is
correspondingly a total function. AgentPy starts with `t = 0`, and the
module global `model_generation` is initialised to `0`. -/
def VineInfectionModel_setup (size : Nat) (latency_draws : Nat → ℚ)
    (sel : List Nat) : ModelState :=
  { agents := seed_initial_infected
      (set_up_agent_variable_attributes size latency_draws) sel
    t := 0
    model_generation := 0
    stopped := false }

/-! ### Concrete instances used to exercise the model -/

/-- A default-cultivar cell as produced by setup: Susceptible, offset 10. -/
def vineS : Agent :=
  { state := AgentState.SUSCEPTIBLE, state_next := AgentState.SUSCEPTIBLE,
    initial_state := AgentState.SUSCEPTIBLE, infectivity_offset := 10,
    latency_duration := 8, latency_counter := 0 }

/-- A default-cultivar cell that has become Infected. -/
def vineInf : Agent :=
  { state := AgentState.INFECTED, state_next := AgentState.INFECTED,
    initial_state := AgentState.SUSCEPTIBLE, infectivity_offset := 10,
    latency_duration := 8, latency_counter := 0 }

/-- A freshly seeded Latent cell whose Normal latency draw came out as 1. -/
def vineL : Agent :=
  { state := AgentState.LATENT, state_next := AgentState.LATENT,
    initial_state := AgentState.SUSCEPTIBLE, infectivity_offset := 10,
    latency_duration := 1, latency_counter := 0 }

/-- An isolated-cell topology (no neighbors). -/
def noNbrs : Nat → List Nat := fun _ => []

/-- A two-cell topology in which the cells neighbor each other. -/
def pairNbrs : Nat → List Nat := fun i => if i = 0 then [1] else [0]

/-- A random stream whose uniform draws all come out as 1 - ε rounded to 1:
neither `s_2_l` (for any finite neighborhood) nor `self_recovery` fires. -/
def constDraws : Nat → Nat → Draws := fun _ _ => ⟨1, 1⟩

/-- A random stream whose `s_2_l` draw is exactly `0.0` — a value
`random.random()` produces (with probability 2⁻⁵³). -/
def zeroDraws : Nat → Nat → Draws := fun _ _ => ⟨0, 1⟩

/-- A single isolated Infected vine, as at the start of a run. -/
def initInf : ModelState :=
  { agents := [vineInf], t := 0, model_generation := 0, stopped := false }

/-- A single isolated Susceptible vine (a run seeded with zero infections). -/
def initSusc : ModelState :=
  { agents := [vineS], t := 0, model_generation := 0, stopped := false }

/-- A single isolated Latent vine with latency duration 1. -/
def initLat : ModelState :=
  { agents := [vineL], t := 0, model_generation := 0, stopped := false }

/-- A seeded Latent cell whose Normal latency draw came out negative. -/
def vineNeg : Agent :=
  { state := AgentState.LATENT, state_next := AgentState.LATENT,
    initial_state := AgentState.SUSCEPTIBLE, infectivity_offset := 10,
    latency_duration := -3, latency_counter := 0 }

/-- An Infected and a Susceptible vine neighboring each other. -/
def initPair : ModelState :=
  { agents := [vineInf, vineS], t := 0, model_generation := 0, stopped := false }

/-- The model mid-run, about to compute generation 11 (counter and global both
at 10, as left by the tenth step). -/
def initGen10 : ModelState :=
  { agents := [vineInf], t := 10, model_generation := 10, stopped := false }

/-! ### Basic lemmas about the per-agent update -/

/-- The computation phase never writes the `state` field (block 1). -/
lemma update_sr_state (v : Agent) (nb : List Agent) (d : Draws) :
    (update_sr v nb d).state = v.state := by
  unfold update_sr
  split <;> rfl

/-- The computation phase never writes the `state` field (block 2). -/
lemma update_latent_state (v : Agent) (nb : List Agent) :
    (update_latent v nb).state = v.state := by
  unfold update_latent
  split <;> rfl

/-- The computation phase never writes the `state` field (block 3). -/
lemma update_infected_state (v : Agent) (nb : List Agent) (d : Draws) (g : Nat) :
    (update_infected v nb d g).state = v.state := by
  unfold update_infected
  split
  · dsimp only
    split
    · rfl
    · split <;> rfl
  · rfl

/-- The computation phase never writes the `state` field. -/
lemma update_agent_state (v : Agent) (nb : List Agent) (d : Draws) (g : Nat) :
    (update_agent v nb d g).state = v.state := by
  unfold update_agent
  rw [update_infected_state, update_latent_state, update_sr_state]

/-- Rule `s_2_l` reads its neighbors only through their `state` fields. -/
lemma s_2_l_congr (v : Agent) (nb₁ nb₂ : List Agent) (p : ℚ)
    (h : nb₁.map Agent.state = nb₂.map Agent.state) :
    s_2_l v nb₁ p = s_2_l v nb₂ p := by
  have hc : (nb₁.filter (fun n => decide (n.state = AgentState.INFECTED))).length
      = (nb₂.filter (fun n => decide (n.state = AgentState.INFECTED))).length := by
    rw [← List.countP_eq_length_filter, ← List.countP_eq_length_filter]
    calc nb₁.countP (fun n => decide (n.state = AgentState.INFECTED))
        = (nb₁.map Agent.state).countP (fun s => decide (s = AgentState.INFECTED)) := by
          rw [List.countP_map]; rfl
      _ = (nb₂.map Agent.state).countP (fun s => decide (s = AgentState.INFECTED)) := by
          rw [h]
      _ = nb₂.countP (fun n => decide (n.state = AgentState.INFECTED)) := by
          rw [List.countP_map]; rfl
  simp only [s_2_l]
  rw [hc]

/-- Block 2 ignores the neighbor list (`l_2_i` never reads it). -/
lemma update_latent_nb (v : Agent) (nb₁ nb₂ : List Agent) :
    update_latent v nb₁ = update_latent v nb₂ := rfl

/-- Block 3 ignores the neighbor list (`self_recovery` and `manual_removal`
never read it). -/
lemma update_infected_nb (v : Agent) (nb₁ nb₂ : List Agent) (d : Draws) (g : Nat) :
    update_infected v nb₁ d g = update_infected v nb₂ d g := rfl

/-- Block 1 reads its neighbors only through their `state` fields. -/
lemma update_sr_congr (v : Agent) (nb₁ nb₂ : List Agent) (d : Draws)
    (h : nb₁.map Agent.state = nb₂.map Agent.state) :
    update_sr v nb₁ d = update_sr v nb₂ d := by
  unfold update_sr
  rw [s_2_l_congr v nb₁ nb₂ d.s2l_prob h]

/-- The transition rules read neighbors only through their `state` fields. -/
lemma update_agent_congr (v : Agent) (nb₁ nb₂ : List Agent) (d : Draws) (g : Nat)
    (h : nb₁.map Agent.state = nb₂.map Agent.state) :
    update_agent v nb₁ d g = update_agent v nb₂ d g := by
  unfold update_agent
  rw [update_sr_congr v nb₁ nb₂ d h, update_latent_nb _ nb₁ nb₂,
    update_infected_nb _ nb₁ nb₂ d g]

/-! ### List access helpers -/

lemma getElem?_eq_some_getD (l : List α) (j : Nat) (d : α) (h : j < l.length) :
    l[j]? = some (l.getD j d) := by
  rw [List.getElem?_eq_getElem h]
  simp [List.getD, List.getElem?_eq_getElem h]

lemma getD_set_self (l : List α) (i : Nat) (a d : α) (h : i < l.length) :
    (l.set i a).getD i d = a := by
  simp only [List.getD, List.get?_eq_getElem?]
  rw [List.getElem?_set_self h]
  rfl

lemma getD_set_ne (l : List α) (i j : Nat) (a d : α) (h : i ≠ j) :
    (l.set i a).getD j d = l.getD j d := by
  simp only [List.getD, List.get?_eq_getElem?]
  rw [List.getElem?_set_ne h]

/-- Two agent lists with pointwise equal `state` fields resolve any index list
to neighbor sets with equal `state` fields. -/
lemma neighbor_agents_map_state (l₁ l₂ : List Agent) (idxs : List Nat)
    (h : ∀ j : Nat, l₁[j]?.map Agent.state = l₂[j]?.map Agent.state) :
    (neighbor_agents l₁ idxs).map Agent.state
      = (neighbor_agents l₂ idxs).map Agent.state := by
  unfold neighbor_agents
  rw [List.map_filterMap, List.map_filterMap]
  exact List.filterMap_congr (fun j _ => h j)

/-- Members of a resolved neighbor set are members of the agent list. -/
lemma neighbor_agents_mem (l : List Agent) (idxs : List Nat) (a : Agent)
    (h : a ∈ neighbor_agents l idxs) : a ∈ l := by
  unfold neighbor_agents at h
  obtain ⟨j, _, hj⟩ := List.mem_filterMap.1 h
  obtain ⟨hlt, he⟩ := List.getElem?_eq_some.1 hj
  exact he ▸ List.getElem_mem hlt

/-! ### Characterisation of the sequential computation phase -/

/-- Invariant of the phase-one loop: after processing the first `k` agents,
agent `j` holds its simultaneous update (computed from the *pre-step* list)
if `j < k`, and is untouched otherwise. The proof threads through the facts
that processed agents keep their `state` field and that the transition rules
read neighbors only through `state`. -/
lemma compute_phase_aux (agents : List Agent) (nbrs : Nat → List Nat)
    (ds : Nat → Draws) (g : Nat) :
    ∀ k, k ≤ agents.length →
      ((List.range k).foldl
          (fun acc i =>
            acc.set i
              (update_agent (acc.getD i default) (neighbor_agents acc (nbrs i))
                (ds i) g))
          agents).length = agents.length ∧
      ∀ j : Nat,
        ((List.range k).foldl
            (fun acc i =>
              acc.set i
                (update_agent (acc.getD i default) (neighbor_agents acc (nbrs i))
                  (ds i) g))
            agents).getD j default =
          if j < k then
            update_agent (agents.getD j default)
              (neighbor_agents agents (nbrs j)) (ds j) g
          else agents.getD j default := by
  intro k
  induction k with
  | zero =>
    intro _
    simp
  | succ k ih =>
    intro hk
    obtain ⟨ihlen, ihget⟩ := ih (Nat.le_of_succ_le hk)
    set F := fun (acc : List Agent) (i : Nat) =>
      acc.set i
        (update_agent (acc.getD i default) (neighbor_agents acc (nbrs i))
          (ds i) g) with hF
    set A := (List.range k).foldl F agents with hA
    have hkl : k < agents.length := hk
    have hfold : (List.range (k + 1)).foldl F agents = F A k := by
      rw [List.range_succ, List.foldl_append]
      simp [hA]
    have hAk : A.getD k default = agents.getD k default := by
      have := ihget k
      simpa using this
    have hstates : ∀ j : Nat, A[j]?.map Agent.state = agents[j]?.map Agent.state := by
      intro j
      by_cases hj : j < agents.length
      · rw [getElem?_eq_some_getD A j default (by rw [ihlen]; exact hj),
          getElem?_eq_some_getD agents j default hj]
        have := ihget j
        by_cases hjk : j < k
        · rw [this, if_pos hjk]
          simp [update_agent_state]
        · rw [this, if_neg hjk]
      · rw [List.getElem?_eq_none (by rw [ihlen]; omega),
          List.getElem?_eq_none (by omega)]
    have hupd : update_agent (A.getD k default) (neighbor_agents A (nbrs k)) (ds k) g
        = update_agent (agents.getD k default)
            (neighbor_agents agents (nbrs k)) (ds k) g := by
      rw [hAk]
      exact update_agent_congr _ _ _ _ _
        (neighbor_agents_map_state A agents (nbrs k) hstates)
    constructor
    · rw [hfold, hF]
      simp only [List.length_set]
      exact ihlen
    · intro j
      rw [hfold, hF]
      by_cases hjk : j = k
      · subst hjk
        rw [getD_set_self _ _ _ _ (by rw [ihlen]; exact hkl), hupd,
          if_pos (Nat.lt_succ_self j)]
      · rw [getD_set_ne _ _ _ _ _ (fun he => hjk he.symm), ihget j]
        by_cases hjlt : j < k
        · rw [if_pos hjlt, if_pos (Nat.lt_succ_of_lt hjlt)]
        · rw [if_neg hjlt, if_neg (by omega)]

/-- The computation phase preserves the number of agents. -/
lemma compute_phase_length (agents : List Agent) (nbrs : Nat → List Nat)
    (ds : Nat → Draws) (g : Nat) :
    (compute_phase agents nbrs ds g).length = agents.length :=
  (compute_phase_aux agents nbrs ds g agents.length (Nat.le_refl _)).1

/-- The result of the sequential computation phase at any index is the
simultaneous update of that agent from the pre-step agent list. -/
lemma compute_phase_getD (agents : List Agent) (nbrs : Nat → List Nat)
    (ds : Nat → Draws) (g : Nat) (j : Nat) (hj : j < agents.length) :
    (compute_phase agents nbrs ds g).getD j default =
      update_agent (agents.getD j default) (neighbor_agents agents (nbrs j))
        (ds j) g := by
  have := (compute_phase_aux agents nbrs ds g agents.length (Nat.le_refl _)).2 j
  rw [compute_phase] at *
  rw [this, if_pos hj]

/-- The commit phase preserves the number of agents. -/
lemma commit_phase_length (l : List Agent) : (commit_phase l).length = l.length := by
  simp [commit_phase]

/-- The commit phase sets each agent's `state` to its own `state_next` and
leaves every other field unchanged. -/
lemma commit_phase_getD (l : List Agent) (j : Nat) (hj : j < l.length) :
    (commit_phase l).getD j default =
      { l.getD j default with state := (l.getD j default).state_next } := by
  simp only [commit_phase, List.getD, List.get?_eq_getElem?, List.getElem?_map]
  rw [getElem?_eq_some_getD l j default hj]
  rfl

/-- The agent list produced by one `step`, at any index: the committed agent
is the simultaneous update of the pre-step agent (with its neighbors resolved
from the pre-step list), with `state` replaced by the computed `state_next`. -/
lemma step_agents_getD (nbrs : Nat → List Nat) (ds : Nat → Draws)
    (s : ModelState) (j : Nat) (hj : j < s.agents.length) :
    (step nbrs ds s).agents.getD j default =
      { update_agent (s.agents.getD j default)
          (neighbor_agents s.agents (nbrs j)) (ds j) s.model_generation with
        state :=
          (update_agent (s.agents.getD j default)
            (neighbor_agents s.agents (nbrs j)) (ds j) s.model_generation).state_next } := by
  show (commit_phase (compute_phase s.agents nbrs ds s.model_generation)).getD j default = _
  rw [commit_phase_getD _ _ (by rw [compute_phase_length]; exact hj),
    compute_phase_getD _ _ _ _ _ hj]

/-- The number of agents is preserved by one `step`. -/
lemma step_agents_length (nbrs : Nat → List Nat) (ds : Nat → Draws)
    (s : ModelState) : (step nbrs ds s).agents.length = s.agents.length := by
  show (commit_phase (compute_phase s.agents nbrs ds s.model_generation)).length = _
  rw [commit_phase_length, compute_phase_length]

/-! ### Evaluation of `update_agent` by compartment -/

/-- Block 1 does nothing for agents outside Susceptible/Recovered. -/
lemma update_sr_skip (v : Agent) (nb : List Agent) (d : Draws)
    (h : ¬(v.state = AgentState.SUSCEPTIBLE ∨ v.state = AgentState.RECOVERED)) :
    update_sr v nb d = v := by
  unfold update_sr
  rw [if_neg h]

/-- Block 2 does nothing for agents outside Latent. -/
lemma update_latent_skip (v : Agent) (nb : List Agent)
    (h : ¬ v.state = AgentState.LATENT) :
    update_latent v nb = v := by
  unfold update_latent
  rw [if_neg h]

/-- Block 3 does nothing for agents outside Infected. -/
lemma update_infected_skip (v : Agent) (nb : List Agent) (d : Draws) (g : Nat)
    (h : ¬ v.state = AgentState.INFECTED) :
    update_infected v nb d g = v := by
  unfold update_infected
  rw [if_neg h]

/-- With no Infected neighbor the infection pressure is `10 * 0 = 0`, so the
firing condition degenerates to `prob ≤ 0`: false for every positive draw. -/
lemma s_2_l_no_infected (vine : Agent) (nb : List Agent) (p : ℚ)
    (hnb : ∀ a ∈ nb, a.state ≠ AgentState.INFECTED) (hp : 0 < p) :
    s_2_l vine nb p = false := by
  have hf : nb.filter (fun n => decide (n.state = AgentState.INFECTED)) = [] := by
    rw [List.filter_eq_nil_iff]
    intro a ha
    simpa using hnb a ha
  simp only [s_2_l, hf, List.length_nil, Nat.cast_zero, mul_zero, zero_div,
    decide_eq_false_iff_not, not_le]
  exact hp

/-- A Susceptible or Recovered agent whose exposure roll fails is written back
unchanged except for `state_next := state`. -/
lemma update_agent_sr_frozen (vine : Agent) (nb : List Agent) (d : Draws) (g : Nat)
    (hst : vine.state = AgentState.SUSCEPTIBLE ∨ vine.state = AgentState.RECOVERED)
    (hs : s_2_l vine nb d.s2l_prob = false) :
    update_agent vine nb d g = { vine with state_next := vine.state } := by
  have hlat : ¬ vine.state = AgentState.LATENT := by
    rcases hst with h | h <;> rw [h] <;> decide
  have hinf : ¬ vine.state = AgentState.INFECTED := by
    rcases hst with h | h <;> rw [h] <;> decide
  unfold update_agent
  rw [show update_sr vine nb d = { vine with state_next := vine.state } by
      unfold update_sr
      rw [if_pos hst, hs]
      rfl,
    update_latent_skip { vine with state_next := vine.state } nb
      (by simpa using hlat),
    update_infected_skip { vine with state_next := vine.state } nb d g
      (by simpa using hinf)]

/-- A Latent agent increments its counter and moves on iff the incremented
counter has reached its latency duration. -/
lemma update_agent_latent (vine : Agent) (nb : List Agent) (d : Draws) (g : Nat)
    (hst : vine.state = AgentState.LATENT) :
    update_agent vine nb d g =
      if (l_2_i { vine with latency_counter := vine.latency_counter + 1 } nb) = true then
        { vine with
            latency_counter := vine.latency_counter + 1
            state_next := AgentState.INFECTED }
      else
        { vine with
            latency_counter := vine.latency_counter + 1
            state_next := vine.state } := by
  have hsr : ¬(vine.state = AgentState.SUSCEPTIBLE ∨ vine.state = AgentState.RECOVERED) := by
    rw [hst]; decide
  unfold update_agent
  rw [update_sr_skip _ _ _ hsr]
  unfold update_latent
  rw [if_pos hst]
  dsimp only
  by_cases hl : (l_2_i { vine with latency_counter := vine.latency_counter + 1 } nb) = true
  · rw [if_pos hl, if_pos hl,
      update_infected_skip _ _ _ _
        (by simp [hst, AgentState.LATENT, AgentState.INFECTED])]
  · rw [if_neg hl, if_neg hl,
      update_infected_skip _ _ _ _
        (by simp [hst, AgentState.LATENT, AgentState.INFECTED])]

/-- An Infected agent whose recovery roll succeeds: permanent recovery, with
`manual_removal` never consulted (the result does not depend on the global
generation counter). -/
lemma update_agent_infected_recovers (vine : Agent) (nb : List Agent) (d : Draws)
    (g : Nat) (hst : vine.state = AgentState.INFECTED)
    (hrec : d.recovery_prob ≤ recovery_rate) :
    update_agent vine nb d g =
      { vine with
          latency_counter := 0
          initial_state := AgentState.RECOVERED
          state_next := AgentState.RECOVERED
          infectivity_offset := resistant_infectivity_offset } := by
  unfold update_agent
  rw [update_sr_skip _ _ _ (by rw [hst]; decide),
    update_latent_skip _ _ (by rw [hst]; decide)]
  unfold update_infected
  rw [if_pos hst]
  dsimp only
  rw [if_pos (show self_recovery _ nb d.recovery_prob = true by
    simp only [self_recovery, decide_eq_true_iff]
    exact hrec)]

/-- An Infected agent whose recovery roll fails: removed back to its
`initial_state` exactly when the global counter read by `manual_removal` is a
strictly-positive multiple of `removal_threshold`; stays Infected otherwise. -/
lemma update_agent_infected_no_recovery (vine : Agent) (nb : List Agent) (d : Draws)
    (g : Nat) (hst : vine.state = AgentState.INFECTED)
    (hrec : ¬ d.recovery_prob ≤ recovery_rate) :
    update_agent vine nb d g =
      if 0 < g ∧ g % removal_threshold = 0 then
        { vine with
            latency_counter := 0
            state_next := vine.initial_state }
      else
        { vine with
            latency_counter := 0
            state_next := vine.state } := by
  unfold update_agent
  rw [update_sr_skip _ _ _ (by rw [hst]; decide),
    update_latent_skip _ _ (by rw [hst]; decide)]
  unfold update_infected
  rw [if_pos hst]
  dsimp only
  rw [if_neg (show ¬ self_recovery _ nb d.recovery_prob = true by
    simp only [self_recovery, decide_eq_true_iff]
    exact hrec)]
  by_cases hg : 0 < g ∧ g % removal_threshold = 0
  · rw [if_pos hg,
      if_pos (show manual_removal _ nb g = true by
        simp only [manual_removal, decide_eq_true_iff]
        exact ⟨hg.1, hg.2⟩)]
  · rw [if_neg hg,
      if_neg (show ¬ manual_removal _ nb g = true by
        simp only [manual_removal, decide_eq_true_iff]
        omega)]

/-- Element lookup in a tabulated list. -/
lemma getD_map_range (m : Nat) (f : Nat → α) (i : Nat) (d : α) (h : i < m) :
    ((List.range m).map f).getD i d = f i := by
  rw [List.getD_eq_getElem _ _ (by simpa using h)]
  simp
/-! ### Claim theorems -/

/-- C1: during every generation step, each agent's committed state equals the
`state_next` computed by `update_agent` from the pre-step record of the agent
and the pre-step states of its neighbors only — even though phase one rewrites
the shared agent list sequentially in place, no transition rule observes a
`state_next` or any already-updated `state` — and the step's agent list is
exactly the commit phase applied to the computation phase's output. -/
theorem C1_synchronous_update (nbrs : Nat → List Nat) (ds : Nat → Draws)
    (s : ModelState) (i : Nat) (hi : i < s.agents.length) :
    ((step nbrs ds s).agents.getD i default).state
        = (update_agent (s.agents.getD i default)
            (neighbor_agents s.agents (nbrs i)) (ds i)
            s.model_generation).state_next
      ∧ (step nbrs ds s).agents
        = commit_phase (compute_phase s.agents nbrs ds s.model_generation) := by
  refine ⟨?_, rfl⟩
  rw [step_agents_getD nbrs ds s i hi]

/-- C1 witness: the theorem instantiated on the two mutually neighboring
cells of `initPair`. -/
theorem C1_synchronous_update_witness :
    ((step pairNbrs (constDraws 0) initPair).agents.getD 0 default).state
        = (update_agent (initPair.agents.getD 0 default)
            (neighbor_agents initPair.agents (pairNbrs 0)) (constDraws 0 0)
            initPair.model_generation).state_next
      ∧ (step pairNbrs (constDraws 0) initPair).agents
        = commit_phase (compute_phase initPair.agents pairNbrs (constDraws 0)
            initPair.model_generation) :=
  C1_synchronous_update pairNbrs (constDraws 0) initPair 0 (by decide)

/-- C2 counterexample: a Susceptible agent with zero Infected neighbors, at
the uniform draw exactly `0.0` (a value `random.random()` can return): the
`<=` comparison in `s_2_l` succeeds against the zero probability, the rule
fires, and `state_next` becomes Latent rather than staying Susceptible. -/
theorem C2_counterexample_zero_draw :
    vineS.state = AgentState.SUSCEPTIBLE
      ∧ (∀ a ∈ ([] : List Agent), a.state ≠ AgentState.INFECTED)
      ∧ s_2_l vineS [] 0 = true
      ∧ (update_agent vineS [] ⟨0, 1⟩ 0).state_next = AgentState.LATENT
      ∧ AgentState.LATENT ≠ vineS.state := by
  refine ⟨rfl, by simp, ?_, ?_, by decide⟩
  · norm_num [s_2_l, vineS, default_infectivity]
  · norm_num [update_agent, update_sr, update_latent, update_infected, s_2_l,
      l_2_i, self_recovery, manual_removal, vineS, default_infectivity,
      recovery_rate, AgentState.SUSCEPTIBLE, AgentState.LATENT,
      AgentState.INFECTED, AgentState.RECOVERED]

/-- C2 amended: for a Susceptible or Recovered agent with zero Infected
neighbors, `s_2_l` cannot fire for any strictly positive uniform draw (the
firing probability is `2⁻⁵³`, carried entirely by the boundary draw `0.0`,
rather than exactly `0`): for every positive draw the agent's `state_next`
is its current state. -/
theorem C2_amended_positive_draw (vine : Agent) (nb : List Agent) (d : Draws)
    (g : Nat)
    (hst : vine.state = AgentState.SUSCEPTIBLE ∨ vine.state = AgentState.RECOVERED)
    (hnb : ∀ a ∈ nb, a.state ≠ AgentState.INFECTED)
    (hp : 0 < d.s2l_prob) :
    s_2_l vine nb d.s2l_prob = false
      ∧ (update_agent vine nb d g).state_next = vine.state
      ∧ (update_agent vine nb d g).state = vine.state := by
  have hs := s_2_l_no_infected vine nb d.s2l_prob hnb hp
  refine ⟨hs, ?_, update_agent_state vine nb d g⟩
  rw [update_agent_sr_frozen vine nb d g hst hs]

/-- C2 witness: the amended theorem at a Susceptible cell with one
(non-Infected) neighbor and draw `1/2`. -/
theorem C2_amended_positive_draw_witness :
    s_2_l vineS [vineS] (Draws.mk (1/2) 1).s2l_prob = false
      ∧ (update_agent vineS [vineS] (Draws.mk (1/2) 1) 0).state_next = vineS.state
      ∧ (update_agent vineS [vineS] (Draws.mk (1/2) 1) 0).state = vineS.state :=
  C2_amended_positive_draw vineS [vineS] (Draws.mk (1/2) 1) 0 (Or.inl rfl)
    (by decide) (by norm_num)

/-- C3 counterexample: a run started with one isolated Infected vine (and a
random stream on which neither `s_2_l` nor `self_recovery` ever fires). After
ten completed generations the vine is still Infected — manual removal did NOT
fire during generation 10 as the claim asserts — and it is removed to its
`initial_state` only during generation 11. -/
theorem C3_counterexample_generation_ten :
    (sim_run noNbrs constDraws initInf 10).t = 10
      ∧ (sim_run noNbrs constDraws initInf 10).stopped = false
      ∧ ((sim_run noNbrs constDraws initInf 10).agents.getD 0 default).state
          = AgentState.INFECTED
      ∧ ((sim_run noNbrs constDraws initInf 10).agents.getD 0 default).initial_state
          = AgentState.SUSCEPTIBLE
      ∧ ((sim_run noNbrs constDraws initInf 11).agents.getD 0 default).state
          = AgentState.SUSCEPTIBLE := by
  norm_num [sim_run, sim_step, step, compute_phase, commit_phase, update_agent,
    update_sr, update_latent, update_infected, s_2_l, l_2_i, self_recovery,
    manual_removal, neighbor_agents, initInf, vineInf, noNbrs, constDraws,
    recovery_rate, removal_threshold, default_infectivity,
    AgentState.SUSCEPTIBLE, AgentState.LATENT, AgentState.INFECTED,
    AgentState.RECOVERED, List.range_succ, List.foldl]

/-- C3 amended: `manual_removal` fires exactly when the global counter it
reads is a strictly-positive multiple of `removal_threshold`; but because the
global is refreshed only at the end of each step, the step that computes
generation `t + 1` evaluates the rule at the previous generation number `t`.
Hence an Infected agent whose recovery roll fails is removed to its
`initial_state` during generations 11, 21, 31, … (when the lagged counter
reads 10, 20, 30, …), not during generations 10, 20, 30, …. -/
theorem C3_amended_lagged_removal (nbrs : Nat → List Nat) (ds : Nat → Draws)
    (s : ModelState) (i g : Nat)
    (hmg : s.model_generation = s.t)
    (hi : i < s.agents.length)
    (hst : (s.agents.getD i default).state = AgentState.INFECTED)
    (hrec : ¬ (ds i).recovery_prob ≤ recovery_rate) :
    (manual_removal (s.agents.getD i default)
        (neighbor_agents s.agents (nbrs i)) g = true
      ↔ 0 < g ∧ g % removal_threshold = 0)
      ∧ ((step nbrs ds s).agents.getD i default).state
          = (if 0 < s.t ∧ s.t % removal_threshold = 0
            then (s.agents.getD i default).initial_state
            else AgentState.INFECTED)
      ∧ (step nbrs ds s).t = s.t + 1
      ∧ (step nbrs ds s).model_generation = s.t + 1 := by
  refine ⟨by simp [manual_removal], ?_, rfl, rfl⟩
  rw [step_agents_getD nbrs ds s i hi,
    update_agent_infected_no_recovery _ _ _ _ hst hrec, hmg]
  by_cases hg : 0 < s.t ∧ s.t % removal_threshold = 0
  · rw [if_pos hg, if_pos hg]
  · rw [if_neg hg, if_neg hg]
    exact hst

/-- C3 witness: the amended theorem at the state reached after ten completed
generations (`t = model_generation = 10`): the step computing generation 11
removes the Infected vine. -/
theorem C3_amended_lagged_removal_witness :
    (manual_removal (initGen10.agents.getD 0 default)
        (neighbor_agents initGen10.agents (noNbrs 0)) 10 = true
      ↔ 0 < 10 ∧ 10 % removal_threshold = 0)
      ∧ ((step noNbrs (constDraws 10) initGen10).agents.getD 0 default).state
          = (if 0 < initGen10.t ∧ initGen10.t % removal_threshold = 0
            then (initGen10.agents.getD 0 default).initial_state
            else AgentState.INFECTED)
      ∧ (step noNbrs (constDraws 10) initGen10).t = initGen10.t + 1
      ∧ (step noNbrs (constDraws 10) initGen10).model_generation
          = initGen10.t + 1 :=
  C3_amended_lagged_removal noNbrs (constDraws 10) initGen10 0 10 rfl
    (by decide) (by decide) (by norm_num [constDraws, recovery_rate])

/-- C4 counterexample: a Latent vine with latency duration 1 transitions to
Infected, but in the committed snapshot of that very generation its
`latency_counter` is 1, not 0 — the claim's "counter is 0 whenever the state
is not Latent" fails right after the generation in which the agent stops
being Latent (the reset happens only during the next generation's update). -/
theorem C4_counterexample_committed_counter :
    vineL.state = AgentState.LATENT ∧ vineL.latency_counter = 0
      ∧ ((sim_step noNbrs constDraws initLat).agents.getD 0 default).state
          = AgentState.INFECTED
      ∧ ((sim_step noNbrs constDraws initLat).agents.getD 0 default).latency_counter
          = 1 := by
  norm_num [sim_step, step, compute_phase, commit_phase, update_agent, update_sr,
    update_latent, update_infected, s_2_l, l_2_i, self_recovery, manual_removal,
    neighbor_agents, initLat, vineL, noNbrs, constDraws, recovery_rate,
    removal_threshold, default_infectivity, AgentState.SUSCEPTIBLE,
    AgentState.LATENT, AgentState.INFECTED, AgentState.RECOVERED,
    List.range_succ, List.foldl]

/-- C4 amended: per update, a Latent agent's counter increases by exactly 1
(including in the generation whose transition takes it out of Latent, so the
committed snapshot of that generation still shows the incremented value); the
counter is reset to 0 during the first update in which the agent's state is
Infected — one generation after it stops being Latent — and it is never
touched while the agent is Susceptible or Recovered. -/
theorem C4_amended_latency_counter (vine : Agent) (nb : List Agent) (d : Draws)
    (g : Nat) :
    (vine.state = AgentState.LATENT →
      (update_agent vine nb d g).latency_counter = vine.latency_counter + 1)
      ∧ (vine.state = AgentState.INFECTED →
        (update_agent vine nb d g).latency_counter = 0)
      ∧ ((vine.state = AgentState.SUSCEPTIBLE ∨ vine.state = AgentState.RECOVERED) →
        (update_agent vine nb d g).latency_counter = vine.latency_counter) := by
  refine ⟨?_, ?_, ?_⟩
  · intro h
    rw [update_agent_latent vine nb d g h]
    split <;> rfl
  · intro h
    by_cases hrec : d.recovery_prob ≤ recovery_rate
    · rw [update_agent_infected_recovers _ _ _ _ h hrec]
    · rw [update_agent_infected_no_recovery _ _ _ _ h hrec]
      split <;> rfl
  · intro h
    have hlat : ¬ vine.state = AgentState.LATENT := by
      rcases h with h' | h' <;> rw [h'] <;> decide
    have hinf : ¬ vine.state = AgentState.INFECTED := by
      rcases h with h' | h' <;> rw [h'] <;> decide
    unfold update_agent update_sr
    rw [if_pos h]
    by_cases hs : s_2_l vine nb d.s2l_prob = true
    · rw [if_pos hs,
        update_latent_skip { vine with state_next := AgentState.LATENT } nb
          (by simpa using hlat),
        update_infected_skip { vine with state_next := AgentState.LATENT } nb d g
          (by simpa using hinf)]
    · rw [if_neg hs,
        update_latent_skip { vine with state_next := vine.state } nb
          (by simpa using hlat),
        update_infected_skip { vine with state_next := vine.state } nb d g
          (by simpa using hinf)]

/-- C4 witness: the amended theorem at a Latent and at an Infected vine. -/
theorem C4_amended_latency_counter_witness :
    (update_agent vineL [] (Draws.mk 1 1) 0).latency_counter
        = vineL.latency_counter + 1
      ∧ (update_agent vineInf [] (Draws.mk 1 1) 0).latency_counter = 0 :=
  ⟨(C4_amended_latency_counter vineL [] (Draws.mk 1 1) 0).1 rfl,
   (C4_amended_latency_counter vineInf [] (Draws.mk 1 1) 0).2.1 rfl⟩

/-- C5: for an Infected agent whose recovery roll succeeds, `state_next` and
`initial_state` are both set to Recovered, `infectivity_offset` is upgraded
to the resistant-cultivar value, and the result does not depend on the global
generation counter — `manual_removal` (the only reader of that counter) is
short-circuited and cannot influence the outcome. -/
theorem C5_self_recovery_priority (vine : Agent) (nb : List Agent) (d : Draws)
    (g g' : Nat)
    (hst : vine.state = AgentState.INFECTED)
    (hrec : d.recovery_prob ≤ recovery_rate) :
    self_recovery vine nb d.recovery_prob = true
      ∧ (update_agent vine nb d g).state_next = AgentState.RECOVERED
      ∧ (update_agent vine nb d g).initial_state = AgentState.RECOVERED
      ∧ (update_agent vine nb d g).infectivity_offset = resistant_infectivity_offset
      ∧ update_agent vine nb d g = update_agent vine nb d g' := by
  have h1 := update_agent_infected_recovers vine nb d g hst hrec
  have h2 := update_agent_infected_recovers vine nb d g' hst hrec
  refine ⟨?_, ?_, ?_, ?_, ?_⟩
  · simp only [self_recovery, decide_eq_true_iff]
    exact hrec
  · rw [h1]
  · rw [h1]
  · rw [h1]
  · rw [h1, h2]

/-- C5 witness: the theorem at an Infected vine with recovery draw 0 and two
different generation counters (one a removal generation, one not). -/
theorem C5_self_recovery_priority_witness :
    self_recovery vineInf [] (Draws.mk 1 0).recovery_prob = true
      ∧ (update_agent vineInf [] (Draws.mk 1 0) 10).state_next
          = AgentState.RECOVERED
      ∧ (update_agent vineInf [] (Draws.mk 1 0) 10).initial_state
          = AgentState.RECOVERED
      ∧ (update_agent vineInf [] (Draws.mk 1 0) 10).infectivity_offset
          = resistant_infectivity_offset
      ∧ update_agent vineInf [] (Draws.mk 1 0) 10
          = update_agent vineInf [] (Draws.mk 1 0) 3 :=
  C5_self_recovery_priority vineInf [] (Draws.mk 1 0) 10 3 rfl
    (by norm_num [recovery_rate])

/-- C6: a cell at `(x, y)` is the resistant cultivar iff
`x mod (D + R) ≥ D`, independent of `y`; with the defaults `D = R = 5`,
cells with `x mod 10 ∈ 0..4` get the default cultivar (Susceptible, offset
10) and cells with `x mod 10 ∈ 5..9` the resistant one (Recovered, offset
180), with period 10 along the x-axis. -/
theorem C6_cultivar_banding (x y y' : Nat) (d : ℚ) :
    (is_intercropped_resistant_cultivar (x, y) = true
      ↔ x % (intercropping_distance + intercropping_row_count)
          ≥ intercropping_distance)
      ∧ set_up_agent_attributes (x, y) d = set_up_agent_attributes (x, y') d
      ∧ (x % 10 ≤ 4 →
        (set_up_agent_attributes (x, y) d).initial_state = AgentState.SUSCEPTIBLE
          ∧ (set_up_agent_attributes (x, y) d).state = AgentState.SUSCEPTIBLE
          ∧ (set_up_agent_attributes (x, y) d).infectivity_offset = 10)
      ∧ (5 ≤ x % 10 →
        (set_up_agent_attributes (x, y) d).initial_state = AgentState.RECOVERED
          ∧ (set_up_agent_attributes (x, y) d).state = AgentState.RECOVERED
          ∧ (set_up_agent_attributes (x, y) d).infectivity_offset = 180)
      ∧ is_intercropped_resistant_cultivar (x + 10, y)
          = is_intercropped_resistant_cultivar (x, y) := by
  have hmod : (x + 10) % 10 = x % 10 := Nat.add_mod_right x 10
  refine ⟨by simp [is_intercropped_resistant_cultivar], rfl, ?_, ?_, ?_⟩
  · intro h
    have hb : is_intercropped_resistant_cultivar (x, y) = false := by
      simp only [is_intercropped_resistant_cultivar, intercropping_distance,
        intercropping_row_count, decide_eq_false_iff_not, not_le]
      omega
    refine ⟨?_, ?_, ?_⟩ <;>
      simp [set_up_agent_attributes, hb, default_infectivity_offset]
  · intro h
    have hb : is_intercropped_resistant_cultivar (x, y) = true := by
      simp only [is_intercropped_resistant_cultivar, intercropping_distance,
        intercropping_row_count, decide_eq_true_iff]
      omega
    refine ⟨?_, ?_, ?_⟩ <;>
      simp [set_up_agent_attributes, hb, resistant_infectivity_offset]
  · simp [is_intercropped_resistant_cultivar, intercropping_distance,
      intercropping_row_count, hmod]

/-- C6 witness: the banding at `x = 3` (default cultivar) and `x = 17`
(resistant), with the `y`-independence hypothesis-free conjuncts exercised. -/
theorem C6_cultivar_banding_witness :
    ((set_up_agent_attributes (3, 1) 8).initial_state = AgentState.SUSCEPTIBLE
        ∧ (set_up_agent_attributes (3, 1) 8).state = AgentState.SUSCEPTIBLE
        ∧ (set_up_agent_attributes (3, 1) 8).infectivity_offset = 10)
      ∧ ((set_up_agent_attributes (17, 1) 8).initial_state = AgentState.RECOVERED
        ∧ (set_up_agent_attributes (17, 1) 8).state = AgentState.RECOVERED
        ∧ (set_up_agent_attributes (17, 1) 8).infectivity_offset = 180) :=
  ⟨(C6_cultivar_banding 3 1 9 8).2.2.1 (by decide),
   (C6_cultivar_banding 17 1 9 8).2.2.2.1 (by decide)⟩

/-- C7 counterexample: a run seeded with zero infections (one Susceptible
vine, no Latent/Infected anywhere) whose first-step uniform draw is exactly
`0.0`: the boundary draw makes `s_2_l` fire, the vine commits as Latent, the
stop condition fails, and the simulation takes a second step — so such a run
does not always halt after the first step. -/
theorem C7_counterexample_zero_draw_run :
    (∀ a ∈ initSusc.agents,
        a.state = AgentState.SUSCEPTIBLE ∨ a.state = AgentState.RECOVERED)
      ∧ (sim_run noNbrs zeroDraws initSusc 1).stopped = false
      ∧ ((sim_run noNbrs zeroDraws initSusc 1).agents.getD 0 default).state
          = AgentState.LATENT
      ∧ (sim_run noNbrs zeroDraws initSusc 2).t = 2 := by
  refine ⟨by decide, ?_, ?_, ?_⟩ <;>
    norm_num [sim_run, sim_step, step, compute_phase, commit_phase, update_agent,
      update_sr, update_latent, update_infected, s_2_l, l_2_i, self_recovery,
      manual_removal, neighbor_agents, initSusc, vineS, noNbrs, zeroDraws,
      recovery_rate, removal_threshold, default_infectivity,
      AgentState.SUSCEPTIBLE, AgentState.LATENT, AgentState.INFECTED,
      AgentState.RECOVERED, List.range_succ, List.foldl]

/-- C7 amended: the step halts the run exactly when the committed Latent plus
Infected count is zero, and a stopped model takes no further steps; a model
holding only Susceptible/Recovered agents stops after one step *provided*
every `s_2_l` draw of that step is strictly positive (the draw `0.0`, which
`random.random()` can produce, is the one exception — see the
counterexample). -/
theorem C7_amended_halting (nbrs : Nat → List Nat) (draws : Nat → Nat → Draws)
    (s : ModelState)
    (hact : ∀ a ∈ s.agents,
      a.state = AgentState.SUSCEPTIBLE ∨ a.state = AgentState.RECOVERED)
    (hdr : ∀ i, 0 < (draws s.t i).s2l_prob) :
    ((step nbrs (draws s.t) s).stopped = true ↔
        ((step nbrs (draws s.t) s).agents.filter
            (fun a => decide (a.state = AgentState.LATENT))).length
          + ((step nbrs (draws s.t) s).agents.filter
              (fun a => decide (a.state = AgentState.INFECTED))).length = 0)
      ∧ (∀ s' : ModelState, s'.stopped = true → sim_step nbrs draws s' = s')
      ∧ (step nbrs (draws s.t) s).stopped = true
      ∧ (s.stopped = false → ∀ m : Nat,
          sim_run nbrs draws s (m + 1) = sim_run nbrs draws s 1) := by
  have hiff : (step nbrs (draws s.t) s).stopped = true ↔
      ((step nbrs (draws s.t) s).agents.filter
          (fun a => decide (a.state = AgentState.LATENT))).length
        + ((step nbrs (draws s.t) s).agents.filter
            (fun a => decide (a.state = AgentState.INFECTED))).length = 0 := by
    simp only [step, decide_eq_true_eq]
  have hfix : ∀ s' : ModelState, s'.stopped = true → sim_step nbrs draws s' = s' := by
    intro s' h
    simp [sim_step, h]
  have hcomm : ∀ a ∈ (step nbrs (draws s.t) s).agents,
      a.state = AgentState.SUSCEPTIBLE ∨ a.state = AgentState.RECOVERED := by
    intro a ha
    obtain ⟨j, hjlt, hje⟩ := List.mem_iff_getElem.1 ha
    have hlen : j < s.agents.length := by
      have := step_agents_length nbrs (draws s.t) s
      omega
    have hgd : (step nbrs (draws s.t) s).agents.getD j default = a := by
      rw [List.getD_eq_getElem _ _ hjlt]
      exact hje
    have horig : s.agents.getD j default ∈ s.agents := by
      rw [List.getD_eq_getElem _ _ hlen]
      exact List.getElem_mem hlen
    have hsr := hact _ horig
    have hnbr : ∀ b ∈ neighbor_agents s.agents (nbrs j),
        b.state ≠ AgentState.INFECTED := by
      intro b hb
      rcases hact b (neighbor_agents_mem _ _ _ hb) with h' | h' <;> rw [h'] <;> decide
    have hs2l := s_2_l_no_infected (s.agents.getD j default)
      (neighbor_agents s.agents (nbrs j)) ((draws s.t j).s2l_prob) hnbr (hdr j)
    have hrec := step_agents_getD nbrs (draws s.t) s j hlen
    rw [update_agent_sr_frozen _ _ _ _ hsr hs2l] at hrec
    have hstate : a.state = (s.agents.getD j default).state := by
      rw [← hgd, hrec]
    rw [hstate]
    exact hsr
  have hL : (step nbrs (draws s.t) s).agents.filter
      (fun a => decide (a.state = AgentState.LATENT)) = [] := by
    rw [List.filter_eq_nil_iff]
    intro a ha
    rcases hcomm a ha with h | h <;>
      simp [h, AgentState.SUSCEPTIBLE, AgentState.RECOVERED, AgentState.LATENT]
  have hI : (step nbrs (draws s.t) s).agents.filter
      (fun a => decide (a.state = AgentState.INFECTED)) = [] := by
    rw [List.filter_eq_nil_iff]
    intro a ha
    rcases hcomm a ha with h | h <;>
      simp [h, AgentState.SUSCEPTIBLE, AgentState.RECOVERED, AgentState.INFECTED]
  have hstop : (step nbrs (draws s.t) s).stopped = true := by
    rw [hiff, hL, hI]
    rfl
  refine ⟨hiff, hfix, hstop, ?_⟩
  intro hns m
  induction m with
  | zero => rfl
  | succ m ih =>
    have h1 : sim_run nbrs draws s 1 = step nbrs (draws s.t) s := by
      show sim_step nbrs draws s = _
      simp [sim_step, hns]
    show sim_step nbrs draws (sim_run nbrs draws s (m + 1)) = sim_run nbrs draws s 1
    rw [ih, h1]
    exact hfix _ hstop

/-- C7 witness: the amended theorem on an all-Susceptible model with strictly
positive draws — the run stops after its first step and stays stopped. -/
theorem C7_amended_halting_witness :
    (step noNbrs (constDraws initSusc.t) initSusc).stopped = true
      ∧ sim_run noNbrs constDraws initSusc 4 = sim_run noNbrs constDraws initSusc 1 :=
  ⟨(C7_amended_halting noNbrs constDraws initSusc (by decide)
        (fun _ => by norm_num [constDraws])).2.2.1,
   (C7_amended_halting noNbrs constDraws initSusc (by decide)
        (fun _ => by norm_num [constDraws])).2.2.2 rfl 3⟩

/-- C8: `setup` contains no validation whatsoever — it is a total function of
its configuration. On the invalid configuration `size = 0` (a non-positive
grid) it silently proceeds and yields a normal, non-error model state with an
empty agent list, instead of failing fast with a configuration error; rates
and durations are module constants that are likewise never checked. -/
theorem C8_setup_no_validation :
    (VineInfectionModel_setup 0 (fun _ => 8) []).agents.length = 0
      ∧ (VineInfectionModel_setup 0 (fun _ => 8) []).stopped = false
      ∧ (VineInfectionModel_setup 0 (fun _ => 8) []).t = 0 := by
  refine ⟨?_, rfl, rfl⟩
  simp [VineInfectionModel_setup, seed_initial_infected,
    set_up_agent_variable_attributes]

/-- C9: seeding touches only the `state` field of the selected cells (forcing
it to Latent) and leaves every other field of selected cells — and every
field of non-selected cells — exactly as the heterogeneity initializer
assigned them. -/
theorem C9_seeding_frame (n : Nat) (ld : Nat → ℚ) (sel : List Nat) (i : Nat)
    (hi : i < n * n) :
    (seed_initial_infected (set_up_agent_variable_attributes n ld) sel).length
        = (set_up_agent_variable_attributes n ld).length
      ∧ (i ∈ sel →
        (seed_initial_infected (set_up_agent_variable_attributes n ld) sel).getD i
            default
          = { (set_up_agent_variable_attributes n ld).getD i default with
              state := AgentState.LATENT })
      ∧ (i ∉ sel →
        (seed_initial_infected (set_up_agent_variable_attributes n ld) sel).getD i
            default
          = (set_up_agent_variable_attributes n ld).getD i default) := by
  have hlen : (set_up_agent_variable_attributes n ld).length = n * n := by
    simp [set_up_agent_variable_attributes]
  have hseed : ∀ j : Nat, j < n * n →
      (seed_initial_infected (set_up_agent_variable_attributes n ld) sel).getD j
          default
        = if j ∈ sel then
            { (set_up_agent_variable_attributes n ld).getD j default with
              state := AgentState.LATENT }
          else (set_up_agent_variable_attributes n ld).getD j default := by
    intro j hj
    unfold seed_initial_infected
    rw [hlen, getD_map_range _ _ _ _ hj]
  refine ⟨?_, ?_, ?_⟩
  · unfold seed_initial_infected
    rw [List.length_map, List.length_range]
  · intro h
    rw [hseed i hi, if_pos h]
  · intro h
    rw [hseed i hi, if_neg h]

/-- C9 witness: a 2×2 grid with cell 1 seeded: cell 1 changes only its
`state`, cell 0 is untouched. -/
theorem C9_seeding_frame_witness :
    (seed_initial_infected (set_up_agent_variable_attributes 2 (fun _ => 8))
          [1]).getD 1 default
        = { (set_up_agent_variable_attributes 2 (fun _ => 8)).getD 1 default with
            state := AgentState.LATENT }
      ∧ (seed_initial_infected (set_up_agent_variable_attributes 2 (fun _ => 8))
            [1]).getD 0 default
        = (set_up_agent_variable_attributes 2 (fun _ => 8)).getD 0 default :=
  ⟨(C9_seeding_frame 2 (fun _ => 8) [1] 1 (by decide)).2.1 (by decide),
   (C9_seeding_frame 2 (fun _ => 8) [1] 0 (by decide)).2.2 (by decide)⟩

/-- C10: the latency draw is stored at setup without clamping, and a Latent
agent whose `latency_duration` is at most `latency_counter + 1` — in
particular one whose Normal draw was non-positive or at most 1, in its first
Latent generation — fires `l_2_i` this generation: its `state_next` becomes
Infected after exactly this one update. -/
theorem C10_no_latency_clamp (p : Nat × Nat) (dq : ℚ) (vine : Agent)
    (nb : List Agent) (d : Draws) (g : Nat)
    (hst : vine.state = AgentState.LATENT)
    (hdur : vine.latency_duration ≤ (vine.latency_counter : ℚ) + 1) :
    (set_up_agent_attributes p dq).latency_duration = dq
      ∧ (update_agent vine nb d g).state_next = AgentState.INFECTED
      ∧ (update_agent vine nb d g).latency_counter = vine.latency_counter + 1 := by
  have hl : l_2_i { vine with latency_counter := vine.latency_counter + 1 } nb
      = true := by
    simp only [l_2_i, decide_eq_true_iff]
    push_cast
    exact hdur
  rw [update_agent_latent vine nb d g hst, if_pos hl]
  exact ⟨rfl, rfl, rfl⟩

/-- C10 witness: a Latent vine whose Normal draw came out negative (-3)
becomes Infected after its single Latent generation, and setup stores the
negative draw unchanged. -/
theorem C10_no_latency_clamp_witness :
    (set_up_agent_attributes (0, 0) (-3)).latency_duration = -3
      ∧ (update_agent vineNeg [] (Draws.mk 1 1) 0).state_next
          = AgentState.INFECTED
      ∧ (update_agent vineNeg [] (Draws.mk 1 1) 0).latency_counter
          = vineNeg.latency_counter + 1 :=
  C10_no_latency_clamp (0, 0) (-3) vineNeg [] (Draws.mk 1 1) 0 rfl
    (by norm_num [vineNeg])

end Vine
